import Mathlib

/-!
Verification development for the `intelligent-personal-assistant` repository.

We give a shallow embedding, in Lean, of the parts of the program that the
checked properties talk about:

* `src/main.py` — the `/slack/events` webhook handler;
* `src/src/agents.py` — the orchestrator (`_initialize_agents`,
  `process_request`);
* `src/src/tools/calendar.py` — `insert_event`, `list_events`, `delete_event`;
* `src/src/tools/weather.py` — `_get_weather_data` (location resolution) and
  `check_rain_probability`.

External collaborators (the Google Calendar service, the Open-Meteo and
Nominatim endpoints, the Slack signature verifier, the multi-agent
collaboration run) are modelled as oracle functions passed in as parameters;
the embedded code records exactly which requests it issues to them.  Python
machine-level details are modelled as follows: Python runtime values observed
by the orchestrator's attribute probing become the inductive `Value`;
fallible code returns `Option`/`Except`; Python `float` is modelled as `ℚ`
(the program only ever parses finite decimal literals and adds/sums them);
Python string helpers (`strip`, `lower`, `split`, `in`) are given executable
Lean counterparts.
-/

set_option maxHeartbeats 1600000
set_option maxRecDepth 16384

namespace IPA

/-! ## Python-level helpers shared by all modules

All string helpers recurse structurally over the character list, so that
every embedded computation reduces inside the kernel. -/

/-- Model of Python `str.strip()` (whitespace). -/
def pyStrip (s : String) : String :=
  ⟨((s.data.dropWhile Char.isWhitespace).reverse.dropWhile
      Char.isWhitespace).reverse⟩

/-- Model of Python `str.lower()`. -/
def pyLower (s : String) : String := ⟨s.data.map Char.toLower⟩

/-- Model of Python `str.upper()`. -/
def pyUpper (s : String) : String := ⟨s.data.map Char.toUpper⟩

/-- Model of Python `needle in hay` on strings: substring test. -/
def strContainsSub (hay needle : String) : Bool :=
  hay.data.tails.any (fun t => needle.data.isPrefixOf t)

/-- Split a character list at every character satisfying `p`, keeping
empty pieces (the behaviour of Python `str.split(sep)` at each separator
occurrence). -/
def splitPred (p : Char → Bool) : List Char → List (List Char)
  | [] => [[]]
  | x :: rest =>
    match splitPred p rest with
    | [] => [[x]]
    | h :: t => if p x then [] :: h :: t else (x :: h) :: t

/-- Model of Python `str.split(sep)` for a one-character separator (the
program only ever splits on `|`, `,`, `=`, `-` and `:`). -/
def pySplitOn (s : String) (c : Char) : List String :=
  (splitPred (fun x => x = c) s.data).map (fun l => (⟨l⟩ : String))

/-- Model of Python `str.split()` with no argument: split on whitespace,
dropping empty pieces. -/
def pySplitWs (s : String) : List String :=
  ((splitPred Char.isWhitespace s.data).map (fun l => (⟨l⟩ : String))).filter
    (fun x => x ≠ "")

/-- Model of Python `s.startswith(p)`. -/
def pyStartsWith (s p : String) : Bool := p.data.isPrefixOf s.data

/-- Model of Python `s.endswith(p)`. -/
def pyEndsWith (s p : String) : Bool := p.data.isSuffixOf s.data

/-- Model of Python slicing `s[n:]`. -/
def strDrop (s : String) (n : Nat) : String := ⟨s.data.drop n⟩

/-- Model of Python slicing `s[:-n]`. -/
def strDropRight (s : String) (n : Nat) : String :=
  ⟨s.data.take (s.data.length - n)⟩

/-- Model of Python slicing `s[:n]`. -/
def strTake (s : String) (n : Nat) : String := ⟨s.data.take n⟩

/-- Model of Python `sep.join(ls)`. -/
def joinSep (sep : String) : List String → String
  | [] => ""
  | [x] => x
  | x :: y :: rest => x ++ sep ++ joinSep sep (y :: rest)

/-- Model of Python `s.replace("-", "")`. -/
def stripDashes (s : String) : String :=
  ⟨s.data.filter (fun c => c ≠ '-')⟩

/-- Value of a digit string (caller guarantees all characters are digits). -/
def digitsVal (cs : List Char) : Nat :=
  cs.foldl (fun n c => 10 * n + (c.toNat - '0'.toNat)) 0

/-- Decimal-digit parse of a whole string (used by the date/time field
checks). -/
def pyToNat? (s : String) : Option Nat :=
  if s.data ≠ [] ∧ s.data.all Char.isDigit then some (digitsVal s.data)
  else none

/-- Model of Python `int(s)`: optional sign, then decimal digits,
surrounding whitespace allowed.  (Underscore separators are not modelled;
the program never feeds them.) -/
def pyIntParse (s : String) : Option Int :=
  let t := (pyStrip s).data
  match t with
  | '+' :: r => if r ≠ [] ∧ r.all Char.isDigit then some (digitsVal r) else none
  | '-' :: r => if r ≠ [] ∧ r.all Char.isDigit then some (-(digitsVal r : Int)) else none
  | r => if r ≠ [] ∧ r.all Char.isDigit then some (digitsVal r) else none

/-- Mantissa of a decimal literal: `digits`, `digits.`, `.digits` or
`digits.digits`; returns its value and the unconsumed characters. -/
def parseMantissa (cs : List Char) : Option (ℚ × List Char) :=
  let ip := cs.takeWhile Char.isDigit
  let rest := cs.dropWhile Char.isDigit
  match rest with
  | '.' :: rest2 =>
    let fp := rest2.takeWhile Char.isDigit
    let rest3 := rest2.dropWhile Char.isDigit
    if ip = [] ∧ fp = [] then none
    else some ((digitsVal ip : ℚ) + (digitsVal fp : ℚ) / (10 : ℚ) ^ fp.length, rest3)
  | _ => if ip = [] then none else some ((digitsVal ip : ℚ), rest)

/-- Optional exponent part after `e`/`E`: optional sign then digits. -/
def parseExpPart (cs : List Char) : Option Int :=
  match cs with
  | '+' :: r => if r ≠ [] ∧ r.all Char.isDigit then some (digitsVal r) else none
  | '-' :: r => if r ≠ [] ∧ r.all Char.isDigit then some (-(digitsVal r : Int)) else none
  | r => if r ≠ [] ∧ r.all Char.isDigit then some (digitsVal r) else none

/-- Model of Python `float(s)` restricted to finite decimal literals
(optional sign, mantissa, optional exponent); `inf`/`nan` are not modelled
— the program only ever parses coordinates and durations. -/
def pyFloatParse (s : String) : Option ℚ :=
  let t := (pyStrip s).data
  let sgn : ℚ × List Char :=
    match t with
    | '+' :: r => (1, r)
    | '-' :: r => (-1, r)
    | r => (1, r)
  match parseMantissa sgn.2 with
  | none => none
  | some (m, rest) =>
    match rest with
    | [] => some (sgn.1 * m)
    | c :: rest2 =>
      if c = 'e' ∨ c = 'E' then
        match parseExpPart rest2 with
        | some k => some (sgn.1 * m * (10 : ℚ) ^ k)
        | none => none
      else none

/-- Model of a Python slice `l[s:e]` for `0 ≤ s ≤ e` (the only shape the
embedded code produces before slicing). -/
def pySlice {α : Type} (l : List α) (s e : Int) : List α :=
  (l.drop s.toNat).take (e - s).toNat

/-! ## Orchestrator response values (`src/src/agents.py`)

`process_request` probes heterogeneous message objects with
`hasattr`/`getattr`; the values it can observe are modelled by `Value`.
Non-string contents (e.g. the list of function calls that an agent message
may carry) are modelled by the `vList` constructor. -/

inductive Value : Type where
  | vNone : Value
  | vStr (s : String) : Value
  | vInt (n : Int) : Value
  | vBool (b : Bool) : Value
  | vList (xs : List String) : Value
deriving DecidableEq

/-- Python truthiness of a `Value` (`bool(v)`). -/
def Value.truthy : Value → Bool
  | .vNone => false
  | .vStr s => s ≠ ""
  | .vInt n => n ≠ 0
  | .vBool b => b
  | .vList xs => xs ≠ []

/-- Whether a `Value` is a Python `str`. -/
def Value.isString : Value → Bool
  | .vStr _ => true
  | _ => false

/-- A message object returned by the collaboration run, as far as the
orchestrator can observe it: an attribute table (`hasattr`/`getattr`),
its `str()` form, and its class name. -/
structure Msg where
  attrs : List (String × Value)
  strForm : String
  clsName : String
deriving DecidableEq

/-- `getattr(m, name, dflt)`. -/
def getattrD (m : Msg) (name : String) (dflt : Value) : Value :=
  match m.attrs.lookup name with
  | some v => v
  | none => dflt

/-- `hasattr(m, name)`. -/
def hasAttr (m : Msg) (name : String) : Bool :=
  (m.attrs.lookup name).isSome

/-- The result object of `team.run(...)`; `getattr(chat_result, "messages",
None)` is modelled by the `Option`. -/
structure ChatResult where
  messages : Option (List Msg)
deriving DecidableEq

/-- The attribute-probing loop of `process_request` lines 213–221 /
233–240: first attribute in `names` that exists with a non-`None` value. -/
def firstAttr (m : Msg) : List String → Option Value
  | [] => none
  | a :: rest =>
    match m.attrs.lookup a with
    | some v => if v = Value.vNone then firstAttr m rest else some v
    | none => firstAttr m rest

/-- Display name resolved for one message in the logging loop
(`src/src/agents.py` lines 207–223); used only for logging. -/
def stepAgentName (m : Msg) : Value :=
  match m.attrs.lookup "src" with
  | some v => v
  | none =>
    match firstAttr m ["sender", "author", "agent", "role"] with
    | some v => v
    | none => Value.vStr m.clsName

/-- Display content resolved for one message in the logging loop
(`src/src/agents.py` lines 226–242); used only for logging. -/
def stepContent (m : Msg) : Value :=
  let c := getattrD m "content" Value.vNone
  let c :=
    if c = Value.vNone then
      match firstAttr m ["text", "message", "body"] with
      | some v => v
      | none => Value.vNone
    else c
  if c = Value.vNone then Value.vStr m.strForm else c

/-- Final response extraction (`src/src/agents.py` lines 247–248):
`getattr(final_msg, "content", None) or str(final_msg)`.  Python `or`
returns the left value when it is truthy and the right one otherwise. -/
def finalContent (m : Msg) : Value :=
  let c := getattrD m "content" Value.vNone
  if c.truthy then c else Value.vStr m.strForm

/-- `PersonalAssistantOrchestrator.process_request` (`src/src/agents.py`
lines 178–255).  `ini` is the outcome of `await self._initialize_agents()`
(team construction folded in), `run` the outcome of `await
team.run(task=user_input)`; an `Except.error e` models those calls raising
an exception whose `str()` is `e`.  The enclosing `try`/`except` converts
any exception into the string `"Error: " ++ str(e)`.  The per-message
logging loop has no effect on the returned value and is modelled by
`stepAgentName`/`stepContent` separately. -/
def processRequest (ini : Except String Unit)
    (run : String → Except String ChatResult) (userInput : String) : Value :=
  match ini with
  | .error e => Value.vStr ("Error: " ++ e)
  | .ok () =>
    match run userInput with
    | .error e => Value.vStr ("Error: " ++ e)
    | .ok cr =>
      match cr.messages with
      | none => Value.vStr "No response generated"
      | some [] => Value.vStr "No response generated"
      | some (m :: ms) => finalContent ((m :: ms).getLastD m)

/-! ## Orchestrator initialization (`src/src/agents.py` lines 151–174)

The mutable orchestrator fields touched by `_initialize_agents`.  Agents
are opaque. -/

structure OrchState (Agent : Type) where
  email_agent : Option Agent
  weather_agent : Option Agent
  calendar_agent : Option Agent
  search_agent : Option Agent
  agent_list : Option (List Agent)
  agents_initialized : Bool
deriving DecidableEq

/-- Orchestrator state right after `__init__` (lines 132–149). -/
def initialOrchState (Agent : Type) : OrchState Agent :=
  { email_agent := none, weather_agent := none, calendar_agent := none,
    search_agent := none, agent_list := none, agents_initialized := false }

/-- One call of `_initialize_agents`.  `gather` is the outcome of the
`asyncio.gather` of the four agent constructors: on error the exception
propagates before any field is assigned.  The returned `Bool` records
whether this call constructed and stored the agent list. -/
def initializeAgentsStep {Agent : Type}
    (gather : Except String (Agent × Agent × Agent × Agent))
    (s : OrchState Agent) : OrchState Agent × Bool :=
  if s.agents_initialized then (s, false)
  else
    match gather with
    | .error _ => (s, false)
    | .ok (e, w, c, sr) =>
      ({ email_agent := some e, weather_agent := some w,
         calendar_agent := some c, search_agent := some sr,
         agent_list := some [e, w, c, sr], agents_initialized := true }, true)

/-- Sequential calls of `_initialize_agents`, one gather outcome per call;
returns the final state and how many calls constructed the agent list. -/
def runInitCalls {Agent : Type}
    (gs : List (Except String (Agent × Agent × Agent × Agent)))
    (s : OrchState Agent) : OrchState Agent × Nat :=
  match gs with
  | [] => (s, 0)
  | g :: rest =>
    let p := initializeAgentsStep g s
    let q := runInitCalls rest p.1
    (q.1, (if p.2 then 1 else 0) + q.2)

/-! ## Slack webhook endpoint (`src/main.py` lines 50–77)

The handler is modelled as a pure function of the decoded payload, the two
headers, the current time and a signature-validity oracle.  The outcome
records the response, whether signature verification was reached, and
whether a background task was scheduled. -/

structure SlackEvent where
  etype : Option String
deriving DecidableEq

structure SlackPayload where
  ptype : Option String
  challenge : Option String
  event : Option SlackEvent
deriving DecidableEq

inductive SlackResp : Type where
  /-- the JSON body `{"challenge": v}` returned with HTTP 200 -/
  | challengeEcho (v : Option String)
  /-- `HTTPException(status_code=400, detail=d)` -/
  | http400 (detail : String)
  /-- the JSON body `{"ok": true}` returned with HTTP 200 -/
  | okTrue
  /-- an uncaught exception escaping the handler (HTTP 500), e.g. the
  `ValueError` from `int()` on a non-numeric timestamp header -/
  | uncaughtExn (msg : String)
deriving DecidableEq

structure SlackOutcome where
  resp : SlackResp
  verifyAttempted : Bool
  taskScheduled : Bool
deriving DecidableEq

/-- `slack_events` (`src/main.py` lines 50–77).  `sigValid` is the outcome
`verifier.is_valid(body, timestamp, signature)` would give for this
request's body and headers.  `now` is `time.time()`. -/
def slackEvents (sigValid : Bool) (now : ℚ) (payload : SlackPayload)
    (tsHeader : Option String) : SlackOutcome :=
  if payload.ptype = some "url_verification" then
    { resp := .challengeEcho payload.challenge,
      verifyAttempted := false, taskScheduled := false }
  else
    match tsHeader with
    | none =>
      { resp := .http400 "Invalid timestamp",
        verifyAttempted := false, taskScheduled := false }
    | some ts =>
      match pyIntParse ts with
      | none =>
        { resp := .uncaughtExn "ValueError",
          verifyAttempted := false, taskScheduled := false }
      | some nts =>
        if 300 < |now - (nts : ℚ)| then
          { resp := .http400 "Invalid timestamp",
            verifyAttempted := false, taskScheduled := false }
        else if !sigValid then
          { resp := .http400 "Invalid Slack signature",
            verifyAttempted := true, taskScheduled := false }
        else
          let et := (payload.event.getD { etype := none }).etype
          { resp := .okTrue, verifyAttempted := true,
            taskScheduled := et = some "app_mention" }

/-! ## Weather tools (`src/src/tools/weather.py`)

### Location resolution — `_get_weather_data` lines 62–78 -/

structure LocResolved where
  lat : ℚ
  lon : ℚ
  /-- `location_name` -/
  name : String
  /-- whether the Nominatim geocoder was invoked -/
  geocoded : Bool
deriving DecidableEq

/-- Floor of a rational, computably: `Int.fdiv` floors toward negative
infinity and a rational's denominator is positive. -/
def ratFloor (q : ℚ) : Int := q.num.fdiv (q.den : Int)

/-- Model of Python `f"{x:.2f}"` (presentation only; rounding is modelled
half-up rather than the float half-even). -/
def fmt2 (q : ℚ) : String :=
  let n : Int := ratFloor (q * 100 + 1 / 2)
  let a := n.natAbs
  let r := a % 100
  (if n < 0 then "-" else "") ++ toString (a / 100) ++ "." ++
    (if r < 10 then "0" else "") ++ toString r

/-- The location-resolution prefix of `_get_weather_data`
(`src/src/tools/weather.py` lines 62–78): a string of exactly two
comma-separated float literals is used directly as `lat, lon` and the
geocoder is skipped; anything else goes through `self._geocode`.  A
failure there is re-raised as `RuntimeError(f"Location error: {e}")`. -/
def resolveLocation (geocode : String → Except String (ℚ × ℚ))
    (location : String) : Except String LocResolved :=
  let parts := (pySplitOn location ',').map pyStrip
  match parts with
  | [p1, p2] =>
    match pyFloatParse p1, pyFloatParse p2 with
    | some lat, some lon =>
      .ok { lat := lat, lon := lon,
            name := fmt2 lat ++ "," ++ fmt2 lon, geocoded := false }
    | _, _ =>
      match geocode location with
      | .ok (lat, lon) =>
        .ok { lat := lat, lon := lon, name := location, geocoded := true }
      | .error e => .error ("Location error: " ++ e)
  | _ =>
    match geocode location with
    | .ok (lat, lon) =>
      .ok { lat := lat, lon := lon, name := location, geocoded := true }
    | .error e => .error ("Location error: " ++ e)

/-! ### Rain probability — `check_rain_probability` lines 203–257 -/

/-- The `hourly` block of the forecast response (only the series the rain
check reads). -/
structure Hourly where
  time : List String
  precipitation_probability : List Int
  precipitation : List ℚ
deriving DecidableEq

/-- The hour-index window for a time-period keyword
(`src/src/tools/weather.py` lines 216–223): `(start_idx, end_idx,
period_name)`. -/
def rainWindow (timePeriod : String) (currentHour : Nat) (len : Nat) :
    Int × Int × String :=
  let p := pyLower timePeriod
  if p = "this_evening" ∨ p = "evening" then
    (max 0 (18 - (currentHour : Int)),
     min (len : Int) (22 - (currentHour : Int) + 1), "this evening")
  else if p = "tonight" then
    (max 0 (22 - (currentHour : Int)),
     min (len : Int) (30 - (currentHour : Int) + 1), "tonight")
  else if p = "tomorrow" then
    (24 - (currentHour : Int),
     min (len : Int) (48 - (currentHour : Int)), "tomorrow")
  else
    (0, min (len : Int) (24 - (currentHour : Int)), "today")

/-- Model of `max(l) if l else 0`. -/
def pyMax (l : List Int) : Int :=
  match l with
  | [] => 0
  | x :: xs => xs.foldl max x

/-- Model of `sum(l) if l else 0`. -/
def pySum (l : List ℚ) : ℚ := l.foldl (· + ·) 0

/-- The fields of the string `check_rain_probability` builds on success
(lines 238–250): the string interpolates exactly these values. -/
structure RainReport where
  location : String
  periodName : String
  maxProb : Int
  totalPrecip : ℚ
  peakTime : String
  label : String
deriving DecidableEq

/-- The four-tier qualitative label (lines 243–250). -/
def rainLabel (maxProb : Int) : String :=
  if 70 ≤ maxProb then "Rain is very likely"
  else if 50 ≤ maxProb then "Rain is likely"
  else if 30 ≤ maxProb then "Rain is possible"
  else "Rain is unlikely"

inductive RainResult : Type where
  /-- the early `"No forecast data available for …"` returns -/
  | noData (msg : String)
  /-- the success string, by its interpolated fields -/
  | report (r : RainReport)
  /-- the `except` clause's `"Error checking rain probability for …"` -/
  | err (msg : String)
deriving DecidableEq

/-- The probability slice `hourly["precipitation_probability"][start:end]`
over the selected window. -/
def rainProbsWindow (h : Hourly) (currentHour : Nat) (timePeriod : String) :
    List Int :=
  pySlice h.precipitation_probability
    (rainWindow timePeriod currentHour h.time.length).1
    (rainWindow timePeriod currentHour h.time.length).2.1

/-- The amount slice `hourly["precipitation"][start:end]` over the
selected window. -/
def rainAmountsWindow (h : Hourly) (currentHour : Nat) (timePeriod : String) :
    List ℚ :=
  pySlice h.precipitation
    (rainWindow timePeriod currentHour h.time.length).1
    (rainWindow timePeriod currentHour h.time.length).2.1

/-- The time slice `hourly["time"][start:end]` over the selected window. -/
def rainTimesWindow (h : Hourly) (currentHour : Nat) (timePeriod : String) :
    List String :=
  pySlice h.time
    (rainWindow timePeriod currentHour h.time.length).1
    (rainWindow timePeriod currentHour h.time.length).2.1

/-- The max/sum/peak/label computation on the three slices
(`src/src/tools/weather.py` lines 233–250). -/
def checkRainSliced (locationArg locName periodName : String)
    (probs : List Int) (amounts : List ℚ) (times : List String) : RainResult :=
  let maxProb := pyMax probs
  -- `precip_probs.index(max_prob) if precip_probs else 0`
  let peakIdx := if probs = [] then 0 else probs.indexOf maxProb
  -- `times[peak_idx] if times else "unknown"`: an out-of-range index
  -- raises IndexError, caught by the enclosing except clause
  if times ≠ [] ∧ times.length ≤ peakIdx then
    .err ("Error checking rain probability for " ++ locationArg ++
          ": list index out of range")
  else
    .report { location := locName, periodName := periodName,
              maxProb := maxProb, totalPrecip := pySum amounts,
              peakTime :=
                match times.get? peakIdx with
                | some t => t
                | none => "unknown",
              label := rainLabel maxProb }

/-- Window selection, the empty-window guard (lines 225–227), and the
slice computation. -/
def checkRainWindowed (locationArg locName : String) (h : Hourly)
    (currentHour : Nat) (timePeriod : String) : RainResult :=
  let w := rainWindow timePeriod currentHour h.time.length
  if (h.time.length : Int) ≤ w.1 ∨ w.2.1 ≤ w.1 then
    .noData ("No forecast data available for " ++ w.2.2)
  else
    checkRainSliced locationArg locName w.2.2
      (rainProbsWindow h currentHour timePeriod)
      (rainAmountsWindow h currentHour timePeriod)
      (rainTimesWindow h currentHour timePeriod)

/-- The body of `check_rain_probability` after the forecast fetch
(`src/src/tools/weather.py` lines 207–253).  `locationArg` is the raw
`location` argument (used in error strings), `locName` the resolved
`data["location"]`, `hourly` models `data["hourly"]` with `none` for a
missing/empty block, `currentHour` is `datetime.now().hour` (in `[0, 24)`
at runtime). -/
def checkRainCore (locationArg locName : String) (hourly : Option Hourly)
    (currentHour : Nat) (timePeriod : String) : RainResult :=
  match hourly with
  | none => .noData ("No forecast data available for " ++ locationArg)
  | some h => checkRainWindowed locationArg locName h currentHour timePeriod

/-- `check_rain_probability` (`src/src/tools/weather.py` lines 203–257),
assembled from location resolution, the forecast fetch oracle, and the
window/tier core.  Fetch failures are wrapped as `"Weather API error: …"`
by `_get_weather_data` and then caught by the tool's except clause. -/
def check_rain_probability (geocode : String → Except String (ℚ × ℚ))
    (fetch : ℚ → ℚ → Except String (Option Hourly))
    (location timePeriod : String) (currentHour : Nat) : RainResult :=
  match resolveLocation geocode location with
  | .error e =>
    .err ("Error checking rain probability for " ++ location ++ ": " ++ e)
  | .ok loc =>
    match fetch loc.lat loc.lon with
    | .error e =>
      .err ("Error checking rain probability for " ++ location ++
            ": Weather API error: " ++ e)
    | .ok hourly => checkRainCore location loc.name hourly currentHour timePeriod

/-! ## Calendar tools (`src/src/tools/calendar.py`)

The Google Calendar service is an oracle; the embedded tools record the
exact request they issue to it. -/

/-- `CalendarTools._parse_input` (lines 25–30): strip, then remove one
matching pair of surrounding quotes. -/
def parse_input (s : String) : String :=
  let t := pyStrip s
  if (pyStartsWith t "'" ∧ pyEndsWith t "'") ∨
     (pyStartsWith t "\"" ∧ pyEndsWith t "\"") then
    strDropRight (strDrop t 1) 1
  else t

/-- A calendar event as the tools read it from the service: `id` is always
present in API responses; `summary`, start display text and `description`
may be absent (`event.get(...)`). -/
structure GEvent where
  id : String
  summary : Option String
  /-- `event["start"].get("dateTime", event["start"].get("date"))` -/
  startTxt : Option String
  description : Option String
deriving DecidableEq

/-- The parameters of a `service.events().list(...)` call. -/
structure EventsListReq where
  calendarId : String
  timeMin : String
  maxResults : Int
  singleEvents : Bool
  orderBy : Option String
deriving DecidableEq

/-! ### `delete_event` (lines 165–209) -/

/-- Everything after the first `=`: `s.split("=", 1)[1]`. -/
def afterFirstEq (s : String) : String :=
  match pySplitOn s '=' with
  | [] => ""
  | [_] => ""
  | _ :: rest => joinSep "=" rest

/-- The pipe-split, stripped fields of a tool input. -/
def toolParts (input : String) : List String :=
  (pySplitOn (parse_input input) '|').map pyStrip

/-- The lowercased title query of `delete_event` (`parts[0].lower()`). -/
def deleteQuery (input : String) : String :=
  pyLower ((toolParts input).headD "")

/-- The scope flag of `delete_event` (lines 171–174). -/
def deleteScope (input : String) : String :=
  match (toolParts input).get? 1 with
  | some p1 =>
    if pyStartsWith (pyLower p1) "scope=" then pyLower (pyStrip (afterFirstEq p1))
    else "one"
  | none => "one"

/-- The listing request `delete_event` issues (lines 179–185). -/
def deleteListReq (now input : String) : EventsListReq :=
  let scope := deleteScope input
  { calendarId := "primary", timeMin := now, maxResults := 50,
    singleEvents := scope ≠ "all",
    orderBy := if scope ≠ "all" then some "startTime" else none }

/-- The match test of the deletion loop (line 190):
`query in event.get("summary", "").lower()`. -/
def deleteMatches (query : String) (ev : GEvent) : Bool :=
  strContainsSub (pyLower (ev.summary.getD "")) query

structure DeleteOutcome where
  /-- the listing request issued -/
  req : EventsListReq
  /-- the id passed to `service.events().delete(...)`, if any -/
  deletedId : Option String
  output : String
deriving DecidableEq

/-- `delete_event` (`src/src/tools/calendar.py` lines 165–209).  The loop
deletes the first listed event whose lowercased summary contains the
lowercased query and returns immediately; `event["summary"]` on a
summary-less event (matched only by the empty query) raises `KeyError`,
caught by the except clause. -/
def delete_event (svc : EventsListReq → List GEvent) (now input : String) :
    DeleteOutcome :=
  let query := deleteQuery input
  let scope := deleteScope input
  let req := deleteListReq now input
  let events := svc req
  match events.find? (deleteMatches query) with
  | some ev =>
    match ev.summary with
    | some title =>
      { req := req, deletedId := some ev.id,
        output := "Deleted event '" ++ title ++ "' " ++
          (if scope = "all" then "(entire series)" else "") }
    | none =>
      { req := req, deletedId := none,
        output := "Error deleting event: 'summary'" }
  | none =>
    { req := req, deletedId := none,
      output := "No event found matching '" ++ query ++ "'" }

/-! ### `list_events` (lines 128–163) -/

structure ListOutcome where
  /-- the listing request issued, if parsing got that far -/
  req : Option EventsListReq
  /-- the events enumerated in the output -/
  shown : List GEvent
  output : String
deriving DecidableEq

/-- One numbered line of the listing (lines 151–156). -/
def eventLine (i : Nat) (ev : GEvent) : String :=
  let start := match ev.startTxt with | some s => s | none => "None"
  let summary := ev.summary.getD "(no title)"
  let d := ev.description.getD ""
  let preview := if d = "" then "" else " - " ++ strTake d 30 ++ "..."
  toString i ++ ". " ++ start ++ ": " ++ summary ++ preview

/-- `list_events` (`src/src/tools/calendar.py` lines 128–163).  The input
is `"<cal_id> | <N>"`; the two-name unpacking raises on any other field
count and `int()` on a non-integer `N`, both caught by the except clause
(whose exact message text is not modelled).  The query is issued against
`calendarId='primary'` whatever `cal_id` said. -/
def list_events (svc : EventsListReq → List GEvent) (now input : String) :
    ListOutcome :=
  match toolParts input with
  | [_cal_id, maxRes] =>
    match pyIntParse maxRes with
    | none => { req := none, shown := [], output := "Error listing events: int" }
    | some n =>
      let req : EventsListReq :=
        { calendarId := "primary", timeMin := now, maxResults := n,
          singleEvents := true, orderBy := some "startTime" }
      let events := svc req
      if events = [] then
        { req := some req, shown := [], output := "No upcoming events found." }
      else
        { req := some req, shown := events,
          output := joinSep "\n"
            ("Upcoming events:" ::
              events.enum.map (fun p => eventLine (p.1 + 1) p.2)) }
  | _ => { req := none, shown := [], output := "Error listing events: unpack" }

/-! ### `insert_event` (lines 59–126) -/

/-- A start or end instant as the event body carries it: the parsed
calendar date and a (possibly fractional, possibly ≥ 1440) minute offset
from that date's midnight.  Normalisation of an overflowing end time into
the next day is not modelled; no claim reads it. -/
structure EventTime where
  date : Nat × Nat × Nat
  minutes : ℚ
deriving DecidableEq

/-- The JSON body handed to `service.events().insert` (lines 77–102); the
constant `conferenceData`/`reminders` blocks are identical on every call
and are not modelled. -/
structure InsertBody where
  summary : String
  description : String
  startTime : EventTime
  endTime : EventTime
  timeZone : String
  attendees : List String
  recurrence : Option (List String)
deriving DecidableEq

/-- The fields of the service's response that the tool reads. -/
structure InsertResp where
  /-- `created['summary']`: `KeyError` if absent -/
  summary : Option String
  /-- `created.get("conferenceData", {}).get("entryPoints", [{}])`:
  `none` models a missing key (so the `[{}]` default applies); each list
  entry is that entry point's optional `uri` -/
  entryPoints : Option (List (Option String))
deriving DecidableEq

/-- The meet-link extraction (lines 114–116): `[0]` on a present-but-empty
`entryPoints` list raises `IndexError`. -/
def meetLinkOf (r : InsertResp) : Except String String :=
  match r.entryPoints with
  | none => .ok "No meet link"
  | some [] => .error "list index out of range"
  | some (u :: _) => .ok (u.getD "No meet link")

/-- The date half of `datetime.fromisoformat(f"{date_str}T{time_str}")`:
`YYYY-MM-DD` with numeric fields in range (per-month day counts beyond 31
are not modelled). -/
def parseDateF (s : String) : Option (Nat × Nat × Nat) :=
  match pySplitOn s '-' with
  | [y, m, d] =>
    match pyToNat? y, pyToNat? m, pyToNat? d with
    | some yv, some mv, some dv =>
      if y.length = 4 ∧ m.length = 2 ∧ d.length = 2 ∧
         1 ≤ mv ∧ mv ≤ 12 ∧ 1 ≤ dv ∧ dv ≤ 31 then some (yv, mv, dv) else none
    | _, _, _ => none
  | _ => none

/-- The time half: `HH:MM` in range. -/
def parseTimeF (s : String) : Option (Nat × Nat) :=
  match pySplitOn s ':' with
  | [h, m] =>
    match pyToNat? h, pyToNat? m with
    | some hv, some mv =>
      if h.length = 2 ∧ m.length = 2 ∧ hv < 24 ∧ mv < 60 then some (hv, mv)
      else none
    | _, _ => none
  | _ => none

/-- The recurrence handling for a seventh field (lines 92–102): `RRULE:`
passthrough (case-insensitive test, original casing kept), the
`daily|weekly … until <date>` subset translated to an RRULE, and anything
else — including the empty field, which fails the `if recurrence:` test —
dropped with no effect. -/
def recurrenceOf (r : String) : Option (List String) :=
  if r = "" then none
  else
    let rr := pyStrip r
    if pyStartsWith (pyUpper rr) "RRULE:" then some [rr]
    else
      let toks := pySplitWs (pyLower rr)
      match toks with
      | [] => none
      | t0 :: _ =>
        if (t0 = "daily" ∨ t0 = "weekly") ∧ toks.contains "until" then
          some ["RRULE:FREQ=" ++ pyUpper t0 ++ ";UNTIL=" ++
                stripDashes (toks.getLastD "") ++ "T000000Z"]
        else none

structure InsertOutcome where
  /-- the body handed to `service.events().insert`, if the call got there -/
  sent : Option InsertBody
  output : String
deriving DecidableEq

/-- The result-string assembly after the `service.events().insert` call
(`src/src/tools/calendar.py` lines 113–122): meet-link extraction, then
`created['summary']`, then the success string (which interpolates the
created summary, the date/time/duration/emails fields — and nothing about
recurrence). -/
def insertOutput (created : InsertResp)
    (dateStr timeStr dur emails : String) : String :=
  match meetLinkOf created with
  | .error e => "Error creating event: " ++ e
  | .ok link =>
    match created.summary with
    | none => "Error creating event: 'summary'"
    | some csum =>
      "Created event '" ++ csum ++ "'\nWhen: " ++ dateStr ++ " " ++ timeStr ++
        " (" ++ dur ++ "h)\nAttendees: " ++ emails ++ "\nMeet: " ++ link

/-- The body of `insert_event` after field extraction
(`src/src/tools/calendar.py` lines 69–122): datetime/duration parsing
(`ValueError` caught by the except clause, message text not modelled),
event-body construction — with the recurrence of the optional seventh
field — the insert call, and the result string. -/
def insertEventFields (svc : InsertBody → InsertResp) (tz : String)
    (summary dateStr timeStr dur emails description : String)
    (recField : Option String) : InsertOutcome :=
  match parseDateF dateStr, parseTimeF timeStr, pyFloatParse dur with
  | some d, some t, some durQ =>
    let body : InsertBody :=
      { summary := summary, description := description,
        startTime := { date := d, minutes := (t.1 * 60 + t.2 : ℚ) },
        endTime := { date := d, minutes := (t.1 * 60 + t.2 : ℚ) + durQ * 60 },
        timeZone := tz,
        attendees := ((pySplitOn emails ',').map pyStrip).filter
          (fun e => e ≠ ""),
        recurrence :=
          match recField with
          | some r => recurrenceOf r
          | none => none }
    { sent := some body, output := insertOutput (svc body) dateStr timeStr dur emails }
  | _, _, _ => { sent := none, output := "Error creating event: ValueError" }

/-- The body of `insert_event` after input splitting
(`src/src/tools/calendar.py` lines 63–126), as a function of the stripped
fields.  `tz` is `self.default_timezone`. -/
def insertEventCore (svc : InsertBody → InsertResp) (tz : String)
    (parts : List String) : InsertOutcome :=
  if parts.length ≠ 6 ∧ parts.length ≠ 7 then
    { sent := none,
      output := "Invalid input. Expected format:\nsummary | YYYY-MM-DD | HH:MM | duration-hours | emails | description | [recurrence]" }
  else
    insertEventFields svc tz (parts.getD 0 "") (parts.getD 1 "")
      (parts.getD 2 "") (parts.getD 3 "") (parts.getD 4 "") (parts.getD 5 "")
      (parts.get? 6)

/-- `insert_event` (lines 59–126): quote-strip, pipe-split, then the core. -/
def insert_event (svc : InsertBody → InsertResp) (tz input : String) :
    InsertOutcome :=
  insertEventCore svc tz (toolParts input)

/-! ## Shared helper lemmas -/

lemma getLast?_eq_getLastD_cons {α : Type} (m : α) (ms : List α) :
    (m :: ms).getLast? = some ((m :: ms).getLastD m) := by
  rw [List.getLast?_eq_getLast (m :: ms) (fun h => List.noConfusion h)]
  rfl

/-- A message whose `content` attribute is a truthy non-string (a list, as
carried by an agent function-call message). -/
def sampleListMsg : Msg :=
  ⟨[("content", Value.vList ["tool_call"])], "FunctionCallMessage(...)",
    "FunctionCallMessage"⟩

/-- A message whose `content` attribute is present and a string, but empty
(falsy). -/
def sampleEmptyContentMsg : Msg :=
  ⟨[("content", Value.vStr "")], "TextMessage(content=)", "TextMessage"⟩

/-- A message with an ordinary truthy string content. -/
def sampleHelloMsg : Msg := ⟨[("content", Value.vStr "hello")], "s", "K"⟩

/-! ## Claims about the webhook endpoint -/

/-- C3: for every inbound POST to `/slack/events` whose JSON payload has
`type = "url_verification"`, the response body is `{"challenge": v}` with
`v` the payload's own challenge value, regardless of the signature's
validity and of the timestamp header, and no background task is scheduled
(signature verification is not even attempted). -/
theorem slack_url_verification_echo (sigValid : Bool) (now : ℚ)
    (payload : SlackPayload) (tsHeader : Option String)
    (h : payload.ptype = some "url_verification") :
    slackEvents sigValid now payload tsHeader =
      { resp := .challengeEcho payload.challenge,
        verifyAttempted := false, taskScheduled := false } := by
  simp [slackEvents, h]

theorem slack_url_verification_echo_witness :
    slackEvents false 0
        { ptype := some "url_verification", challenge := some "ch", event := none }
        none =
      { resp := .challengeEcho (some "ch"),
        verifyAttempted := false, taskScheduled := false } :=
  slack_url_verification_echo false 0
    { ptype := some "url_verification", challenge := some "ch", event := none }
    none rfl

/-- C2 counterexample: an inbound POST whose `X-Slack-Request-Timestamp`
header is absent is NOT always answered with HTTP 400 — when the payload
type is `url_verification` the challenge check runs first and the endpoint
answers with the challenge echo (HTTP 200). -/
theorem slack_missing_timestamp_not_always_400 :
    (slackEvents true 1000
        { ptype := some "url_verification", challenge := some "c", event := none }
        none).resp = SlackResp.challengeEcho (some "c") ∧
    (slackEvents true 1000
        { ptype := some "url_verification", challenge := some "c", event := none }
        none).resp ≠ SlackResp.http400 "Invalid timestamp" := by
  decide

/-- C2 amended: for every inbound POST whose payload type is NOT
`url_verification`, if the timestamp header is absent, or is an integer
string differing from the current time by more than 300 seconds, the
endpoint returns HTTP 400 before signature verification is attempted, and
no background task is scheduled. -/
theorem slack_timestamp_reject (sigValid : Bool) (now : ℚ)
    (payload : SlackPayload) (tsHeader : Option String)
    (hnc : payload.ptype ≠ some "url_verification")
    (hts : tsHeader = none ∨
      ∃ ts nts, tsHeader = some ts ∧ pyIntParse ts = some nts ∧
        300 < |now - (nts : ℚ)|) :
    slackEvents sigValid now payload tsHeader =
      { resp := .http400 "Invalid timestamp",
        verifyAttempted := false, taskScheduled := false } := by
  rcases hts with h | ⟨ts, nts, hts, hn, habs⟩
  · simp [slackEvents, hnc, h]
  · subst hts
    simp [slackEvents, hnc, hn, habs]

theorem slack_timestamp_reject_witness :
    slackEvents true 0
        { ptype := some "event_callback", challenge := none, event := none }
        none =
      { resp := .http400 "Invalid timestamp",
        verifyAttempted := false, taskScheduled := false } :=
  slack_timestamp_reject true 0
    { ptype := some "event_callback", challenge := none, event := none }
    none (by decide) (Or.inl rfl)

/-! ## Claims about `process_request` -/

/-- C1 counterexample: `process_request` does not always return a string —
when the collaboration run succeeds and the last message's `content`
attribute holds a truthy non-string value (here a list, as an agent
function-call message carries), that value is returned as-is.  (The caller
in `src/main.py` line 39 even guards against a non-string result.)  The
"Error: " conversion of the claim is not at issue here; the returned value
is simply not a string. -/
theorem process_request_returns_nonstring :
    (processRequest (.ok ()) (fun _ => .ok ⟨some [sampleListMsg]⟩)
        "use a tool").isString = false ∧
    processRequest (.ok ()) (fun _ => .ok ⟨some [sampleListMsg]⟩)
        "use a tool" = Value.vList ["tool_call"] := by
  decide

/-- C1 amended: `process_request` never raises; any exception raised in
initialization or in the collaboration run is caught and the returned
value is the string `"Error: "` followed by the exception's string form;
and whenever the returned value is not a string, the run succeeded and the
value is exactly the last message's truthy non-string `content` attribute
(in every other case a string is returned). -/
theorem process_request_error_handling (ini : Except String Unit)
    (run : String → Except String ChatResult) (input : String) :
    (∀ e, ini = .error e →
      processRequest ini run input = Value.vStr ("Error: " ++ e)) ∧
    (∀ e, ini = .ok () → run input = .error e →
      processRequest ini run input = Value.vStr ("Error: " ++ e)) ∧
    ((processRequest ini run input).isString = false →
      ∃ cr ms m, run input = .ok cr ∧ cr.messages = some ms ∧
        ms.getLast? = some m ∧
        (getattrD m "content" Value.vNone).truthy = true ∧
        processRequest ini run input = getattrD m "content" Value.vNone) := by
  refine ⟨?_, ?_, ?_⟩
  · intro e he
    simp [processRequest, he]
  · intro e hok hr
    simp [processRequest, hok, hr]
  · intro hns
    rcases ini with e | ⟨⟩
    · simp [processRequest, Value.isString] at hns
    · rcases hr : run input with e | cr
      · simp [processRequest, hr, Value.isString] at hns
      · rcases hm : cr.messages with _ | ms
        · simp [processRequest, hr, hm, Value.isString] at hns
        · rcases ms with _ | ⟨m0, ms0⟩
          · simp [processRequest, hr, hm, Value.isString] at hns
          · have hpr : processRequest (Except.ok ()) run input
                = finalContent ((m0 :: ms0).getLastD m0) := by
              simp [processRequest, hr, hm]
            by_cases ht : (getattrD ((m0 :: ms0).getLastD m0) "content"
                Value.vNone).truthy
            · refine ⟨cr, m0 :: ms0, (m0 :: ms0).getLastD m0, rfl, hm,
                getLast?_eq_getLastD_cons m0 ms0, ht, ?_⟩
              rw [hpr]; unfold finalContent; rw [if_pos ht]
            · exfalso
              rw [hpr] at hns; unfold finalContent at hns
              rw [if_neg ht] at hns
              simp [Value.isString] at hns

theorem process_request_error_handling_witness :
    processRequest (.error "boom") (fun _ => .ok ⟨none⟩) "x" =
      Value.vStr "Error: boom" ∧
    processRequest (.ok ()) (fun _ => .error "net down") "x" =
      Value.vStr "Error: net down" ∧
    (∃ cr ms m,
      (Except.ok ⟨some [sampleListMsg]⟩ : Except String ChatResult) = .ok cr ∧
      cr.messages = some ms ∧ ms.getLast? = some m ∧
      (getattrD m "content" Value.vNone).truthy = true ∧
      processRequest (.ok ()) (fun _ => .ok ⟨some [sampleListMsg]⟩) "x" =
        getattrD m "content" Value.vNone) :=
  ⟨(process_request_error_handling (.error "boom")
      (fun _ => .ok ⟨none⟩) "x").1 "boom" rfl,
   (process_request_error_handling (.ok ())
      (fun _ => .error "net down") "x").2.1 "net down" rfl rfl,
   (process_request_error_handling (.ok ())
      (fun _ => .ok ⟨some [sampleListMsg]⟩) "x").2.2 (by decide)⟩

/-- C4 counterexample: when the last message's `content` attribute is
present and is a string — so content resolution succeeds — but the string
is empty (falsy), `process_request` does NOT return that content value: the
`or` fallback returns `str(final_msg)` instead. -/
theorem process_request_falsy_content_fallback :
    processRequest (.ok ()) (fun _ => .ok ⟨some [sampleEmptyContentMsg]⟩) "q" =
      Value.vStr "TextMessage(content=)" ∧
    getattrD sampleEmptyContentMsg "content" Value.vNone = Value.vStr "" ∧
    Value.vStr "TextMessage(content=)" ≠ Value.vStr "" := by
  decide

/-- C4 amended: if the collaboration run's result has no messages (missing,
`None`, or empty) the returned value is the sentinel `"No response
generated"`; otherwise the returned value is the last message's `content`
attribute when that value is truthy, and the last message's string form
otherwise (content missing, `None`, or otherwise falsy such as the empty
string). -/
theorem process_request_last_message (input : String) (cr : ChatResult) :
    ((cr.messages = none ∨ cr.messages = some []) →
      processRequest (.ok ()) (fun _ => .ok cr) input =
        Value.vStr "No response generated") ∧
    (∀ ms m, cr.messages = some ms → ms.getLast? = some m →
      processRequest (.ok ()) (fun _ => .ok cr) input =
        (if (getattrD m "content" Value.vNone).truthy then
          getattrD m "content" Value.vNone
         else Value.vStr m.strForm)) := by
  constructor
  · rintro (h | h) <;> simp [processRequest, h]
  · intro ms m hms hlast
    match ms, hms with
    | [], _ => simp at hlast
    | m0 :: ms0, hms =>
      rw [getLast?_eq_getLastD_cons] at hlast
      injection hlast with hlast
      simp only [processRequest, hms, hlast, finalContent]

theorem process_request_last_message_witness :
    processRequest (.ok ()) (fun _ => .ok ⟨some []⟩) "q" =
      Value.vStr "No response generated" ∧
    processRequest (.ok ()) (fun _ => .ok ⟨some [sampleHelloMsg]⟩) "q" =
      (if (getattrD sampleHelloMsg "content" Value.vNone).truthy then
        getattrD sampleHelloMsg "content" Value.vNone
       else Value.vStr sampleHelloMsg.strForm) :=
  ⟨(process_request_last_message "q" ⟨some []⟩).1 (Or.inr rfl),
   (process_request_last_message "q" ⟨some [sampleHelloMsg]⟩).2
     [sampleHelloMsg] sampleHelloMsg rfl rfl⟩

/-! ## Claim about `_initialize_agents` -/

lemma runInitCalls_of_initialized {Agent : Type}
    (gs : List (Except String (Agent × Agent × Agent × Agent)))
    (s : OrchState Agent) (h : s.agents_initialized = true) :
    runInitCalls gs s = (s, 0) := by
  induction gs with
  | nil => rfl
  | cons g rest ih =>
    have hstep : initializeAgentsStep g s = (s, false) := by
      unfold initializeAgentsStep
      rw [if_pos h]
    simp [runInitCalls, hstep, ih]

lemma runInitCalls_le_one {Agent : Type}
    (gs : List (Except String (Agent × Agent × Agent × Agent)))
    (s : OrchState Agent) : (runInitCalls gs s).2 ≤ 1 := by
  induction gs generalizing s with
  | nil => simp [runInitCalls]
  | cons g rest ih =>
    by_cases h : s.agents_initialized = true
    · rw [runInitCalls_of_initialized (g :: rest) s h]
      simp
    · rw [Bool.not_eq_true] at h
      cases g with
      | error e =>
        have hstep : initializeAgentsStep (Except.error e) s = (s, false) := by
          unfold initializeAgentsStep
          rw [if_neg (by simp [h])]
        simp only [runInitCalls, hstep]
        simpa using ih s
      | ok a =>
        obtain ⟨a1, a2, a3, a4⟩ := a
        have hstep : initializeAgentsStep (Except.ok (a1, a2, a3, a4)) s =
            ({ email_agent := some a1, weather_agent := some a2,
               calendar_agent := some a3, search_agent := some a4,
               agent_list := some [a1, a2, a3, a4],
               agents_initialized := true }, true) := by
          unfold initializeAgentsStep
          rw [if_neg (by simp [h])]
        have hrest := runInitCalls_of_initialized rest
          ({ email_agent := some a1, weather_agent := some a2,
             calendar_agent := some a3, search_agent := some a4,
             agent_list := some [a1, a2, a3, a4],
             agents_initialized := true } : OrchState Agent) rfl
        simp [runInitCalls, hstep, hrest]

/-- C5: the orchestrator's initialization is a guarded one-shot transition:
(1) `_initialize_agents` is a no-op whenever the readiness flag is already
set; (2) the flag can only become set when the gather of all four agent
constructions completed; (3) if any agent construction raises, the state —
in particular the flag — is unchanged, so a later call re-attempts
initialization; (4) when the gather completes from an uninitialized state,
the flag becomes set and the agent list is constructed; (5) under any
sequence of sequential calls, the agent list is constructed at most once. -/
theorem initialize_agents_one_shot (Agent : Type)
    (g : Except String (Agent × Agent × Agent × Agent)) (s : OrchState Agent) :
    (s.agents_initialized = true → initializeAgentsStep g s = (s, false)) ∧
    ((initializeAgentsStep g s).1.agents_initialized = true →
      s.agents_initialized = true ∨ ∃ a, g = .ok a) ∧
    (∀ e, g = .error e → initializeAgentsStep g s = (s, false)) ∧
    (∀ a, g = .ok a → s.agents_initialized = false →
      (initializeAgentsStep g s).1.agents_initialized = true ∧
      (initializeAgentsStep g s).2 = true ∧
      (initializeAgentsStep g s).1.agent_list =
        some [a.1, a.2.1, a.2.2.1, a.2.2.2]) ∧
    (∀ gs, (runInitCalls gs s).2 ≤ 1) := by
  refine ⟨?_, ?_, ?_, ?_, fun gs => runInitCalls_le_one gs s⟩
  · intro h
    unfold initializeAgentsStep
    rw [if_pos h]
  · intro h
    by_cases hs : s.agents_initialized = true
    · exact Or.inl hs
    · right
      cases g with
      | error e =>
        exfalso
        unfold initializeAgentsStep at h
        rw [if_neg (by simp [Bool.not_eq_true] at hs ⊢; exact hs)] at h
        simp at h
        exact hs (h ▸ rfl)
      | ok a => exact ⟨a, rfl⟩
  · intro e he
    subst he
    unfold initializeAgentsStep
    by_cases hs : s.agents_initialized = true
    · rw [if_pos hs]
    · rw [if_neg hs]
  · intro a ha hs
    subst ha
    obtain ⟨a1, a2, a3, a4⟩ := a
    unfold initializeAgentsStep
    rw [if_neg (by simp [hs])]
    exact ⟨rfl, rfl, rfl⟩

theorem initialize_agents_one_shot_witness :
    initializeAgentsStep (Except.ok (1, 2, 3, 4))
        { email_agent := some 1, weather_agent := some 2,
          calendar_agent := some 3, search_agent := some 4,
          agent_list := some [1, 2, 3, 4], agents_initialized := true } =
      ({ email_agent := some 1, weather_agent := some 2,
         calendar_agent := some 3, search_agent := some 4,
         agent_list := some [1, 2, 3, 4], agents_initialized := true }, false) ∧
    initializeAgentsStep (Except.error "tool construction failed")
        (initialOrchState Nat) = (initialOrchState Nat, false) ∧
    (initializeAgentsStep (Except.ok (1, 2, 3, 4))
        (initialOrchState Nat)).1.agents_initialized = true ∧
    (runInitCalls [Except.error "boom", Except.ok (1, 2, 3, 4),
        Except.ok (5, 6, 7, 8)] (initialOrchState Nat)).2 ≤ 1 :=
  ⟨(initialize_agents_one_shot Nat (Except.ok (1, 2, 3, 4)) _).1 rfl,
   (initialize_agents_one_shot Nat (Except.error "tool construction failed")
      (initialOrchState Nat)).2.2.1 "tool construction failed" rfl,
   ((initialize_agents_one_shot Nat (Except.ok (1, 2, 3, 4))
      (initialOrchState Nat)).2.2.2.1 (1, 2, 3, 4) rfl rfl).1,
   (initialize_agents_one_shot Nat (Except.error "boom")
      (initialOrchState Nat)).2.2.2.2
     [Except.error "boom", Except.ok (1, 2, 3, 4), Except.ok (5, 6, 7, 8)]⟩

/-! ## Claim about `check_rain_probability` -/

lemma foldl_max_mem (xs : List Int) (x : Int) : xs.foldl max x ∈ x :: xs := by
  induction xs generalizing x with
  | nil => simp
  | cons y ys ih =>
    rw [List.foldl_cons]
    have h := ih (max x y)
    rw [List.mem_cons] at h
    rcases h with h | h
    · rcases max_choice x y with hc | hc
      · rw [hc] at h ⊢
        rw [h]
        exact List.mem_cons_self x (y :: ys)
      · rw [hc] at h ⊢
        rw [h]
        exact List.mem_cons_of_mem x (List.mem_cons_self y ys)
    · exact List.mem_cons_of_mem x (List.mem_cons_of_mem y h)

lemma foldl_max_bounds (xs : List Int) (x : Int) :
    x ≤ xs.foldl max x ∧ ∀ p ∈ xs, p ≤ xs.foldl max x := by
  induction xs generalizing x with
  | nil => simp
  | cons y ys ih =>
    rw [List.foldl_cons]
    obtain ⟨h1, h2⟩ := ih (max x y)
    refine ⟨le_trans (le_max_left x y) h1, ?_⟩
    intro p hp
    rcases List.mem_cons.mp hp with rfl | hp
    · exact le_trans (le_max_right x _) h1
    · exact h2 p hp

lemma pyMax_mem (l : List Int) (h : l ≠ []) : pyMax l ∈ l := by
  match l with
  | [] => exact absurd rfl h
  | x :: xs => exact foldl_max_mem xs x

lemma pyMax_ge (l : List Int) : ∀ p ∈ l, p ≤ pyMax l := by
  match l with
  | [] => intro p hp; simp at hp
  | x :: xs =>
    intro p hp
    rcases List.mem_cons.mp hp with rfl | hp
    · exact (foldl_max_bounds xs p).1
    · exact (foldl_max_bounds xs x).2 p hp

lemma rainLabel_very (m : Int) :
    (rainLabel m = "Rain is very likely" ↔ 70 ≤ m) := by
  unfold rainLabel
  split_ifs with h1 h2 h3
  · simp [h1]
  · exact ⟨fun hs => absurd hs (by decide), fun hm => absurd hm h1⟩
  · exact ⟨fun hs => absurd hs (by decide), fun hm => absurd hm h1⟩
  · exact ⟨fun hs => absurd hs (by decide), fun hm => absurd hm h1⟩

lemma rainLabel_likely (m : Int) :
    (rainLabel m = "Rain is likely" ↔ 50 ≤ m ∧ m < 70) := by
  unfold rainLabel
  split_ifs with h1 h2 h3
  · exact ⟨fun hs => absurd hs (by decide), fun hm => absurd h1 (not_le.mpr hm.2)⟩
  · exact ⟨fun _ => ⟨h2, not_le.mp h1⟩, fun _ => rfl⟩
  · exact ⟨fun hs => absurd hs (by decide), fun hm => absurd hm.1 h2⟩
  · exact ⟨fun hs => absurd hs (by decide), fun hm => absurd hm.1 h2⟩

lemma rainLabel_possible (m : Int) :
    (rainLabel m = "Rain is possible" ↔ 30 ≤ m ∧ m < 50) := by
  unfold rainLabel
  split_ifs with h1 h2 h3
  · exact ⟨fun hs => absurd hs (by decide),
      fun hm => absurd h1 (not_le.mpr (lt_of_lt_of_le hm.2 (by omega)))⟩
  · exact ⟨fun hs => absurd hs (by decide), fun hm => absurd h2 (not_le.mpr hm.2)⟩
  · exact ⟨fun _ => ⟨h3, not_le.mp h2⟩, fun _ => rfl⟩
  · exact ⟨fun hs => absurd hs (by decide), fun hm => absurd hm.1 h3⟩

lemma rainLabel_unlikely (m : Int) :
    (rainLabel m = "Rain is unlikely" ↔ m < 30) := by
  unfold rainLabel
  split_ifs with h1 h2 h3
  · exact ⟨fun hs => absurd hs (by decide),
      fun hm => absurd h1 (not_le.mpr (by omega))⟩
  · exact ⟨fun hs => absurd hs (by decide),
      fun hm => absurd h2 (not_le.mpr (by omega))⟩
  · exact ⟨fun hs => absurd hs (by decide), fun hm => absurd h3 (not_le.mpr hm)⟩
  · exact ⟨fun _ => not_le.mp h3, fun _ => rfl⟩

lemma pySlice_length {α : Type} (l : List α) (s e : Int) :
    (pySlice l s e).length = min (e - s).toNat (l.length - s.toNat) := by
  simp [pySlice]

lemma rainWindow_nonneg (tp : String) (ch : Nat) (len : Nat) (hch : ch < 24) :
    0 ≤ (rainWindow tp ch len).1 := by
  unfold rainWindow
  dsimp only
  split_ifs
  · exact le_max_left 0 _
  · exact le_max_left 0 _
  · omega
  · exact le_refl 0

lemma checkRainSliced_props (la ln pn : String) (probs : List Int)
    (amounts : List ℚ) (times : List String) (r : RainReport)
    (hpne : probs ≠ []) (hlen : probs.length = times.length)
    (hrep : checkRainSliced la ln pn probs amounts times = .report r) :
    r.location = ln ∧ r.periodName = pn ∧ r.maxProb = pyMax probs ∧
    r.totalPrecip = pySum amounts ∧ r.label = rainLabel (pyMax probs) ∧
    r.peakTime ∈ times := by
  have hmem := pyMax_mem probs hpne
  have hidx : probs.indexOf (pyMax probs) < times.length :=
    hlen ▸ List.indexOf_lt_length.mpr hmem
  unfold checkRainSliced at hrep
  dsimp only at hrep
  rw [if_neg hpne] at hrep
  rw [if_neg (fun hc => absurd hidx (not_lt.mpr hc.2))] at hrep
  rw [List.get?_eq_get hidx] at hrep
  simp only at hrep
  injection hrep with hr
  subst hr
  exact ⟨rfl, rfl, rfl, rfl, rfl, List.get_mem times _ hidx⟩

lemma checkRainWindowed_report (la ln : String) (h : Hourly) (ch : Nat)
    (tp : String) (r : RainReport) (hch : ch < 24)
    (hl1 : h.precipitation_probability.length = h.time.length)
    (hrep : checkRainWindowed la ln h ch tp = .report r) :
    r.maxProb = pyMax (rainProbsWindow h ch tp) ∧
    r.totalPrecip = pySum (rainAmountsWindow h ch tp) ∧
    r.label = rainLabel r.maxProb ∧
    r.peakTime ∈ rainTimesWindow h ch tp ∧
    rainProbsWindow h ch tp ≠ [] := by
  unfold checkRainWindowed at hrep
  by_cases hg : (h.time.length : Int) ≤ (rainWindow tp ch h.time.length).1 ∨
      (rainWindow tp ch h.time.length).2.1 ≤ (rainWindow tp ch h.time.length).1
  · rw [if_pos hg] at hrep
    exact absurd hrep (by simp)
  · rw [if_neg hg] at hrep
    push_neg at hg
    obtain ⟨hlt, hse⟩ := hg
    have h0s := rainWindow_nonneg tp ch h.time.length hch
    have hplen : (rainProbsWindow h ch tp).length =
        (rainTimesWindow h ch tp).length := by
      rw [rainProbsWindow, rainTimesWindow, pySlice_length, pySlice_length, hl1]
    have hppos : 0 < (rainProbsWindow h ch tp).length := by
      rw [rainProbsWindow, pySlice_length, hl1, lt_min_iff]
      constructor <;> omega
    have hpne : rainProbsWindow h ch tp ≠ [] :=
      List.ne_nil_of_length_pos hppos
    obtain ⟨_, _, hmax, htot, hlab, hmem⟩ :=
      checkRainSliced_props la ln (rainWindow tp ch h.time.length).2.2
        (rainProbsWindow h ch tp) (rainAmountsWindow h ch tp)
        (rainTimesWindow h ch tp) r hpne hplen hrep
    exact ⟨hmax, htot, by rw [hlab, hmax], hmem, hpne⟩

/-- C6: for every successful `check_rain_probability` call (one producing
the success report rather than a no-data or error string), the qualitative
label is determined by the maximum precipitation probability over the
selected hour-index window by exactly the four tiers, the reported
expected precipitation is the sum of precipitation amounts over that same
window, and the reported peak time is one of the times inside that window.
The forecast fetch is an oracle returning the hourly block `h`;
`currentHour` is `datetime.now().hour`, hence `< 24`, and the hourly
series have equal lengths in a well-formed Open-Meteo response. -/
theorem check_rain_probability_tiers
    (geocode : String → Except String (ℚ × ℚ)) (h : Hourly)
    (location timePeriod : String) (currentHour : Nat) (r : RainReport)
    (hch : currentHour < 24)
    (hl1 : h.precipitation_probability.length = h.time.length)
    (hrep : check_rain_probability geocode (fun _ _ => .ok (some h))
      location timePeriod currentHour = .report r) :
    (r.label = "Rain is very likely" ↔ 70 ≤ r.maxProb) ∧
    (r.label = "Rain is likely" ↔ 50 ≤ r.maxProb ∧ r.maxProb < 70) ∧
    (r.label = "Rain is possible" ↔ 30 ≤ r.maxProb ∧ r.maxProb < 50) ∧
    (r.label = "Rain is unlikely" ↔ r.maxProb < 30) ∧
    r.maxProb ∈ rainProbsWindow h currentHour timePeriod ∧
    (∀ p ∈ rainProbsWindow h currentHour timePeriod, p ≤ r.maxProb) ∧
    r.totalPrecip = pySum (rainAmountsWindow h currentHour timePeriod) ∧
    r.peakTime ∈ rainTimesWindow h currentHour timePeriod := by
  unfold check_rain_probability at hrep
  rcases hloc : resolveLocation geocode location with e | loc
  · rw [hloc] at hrep
    exact absurd hrep (by simp)
  · rw [hloc] at hrep
    simp only [checkRainCore] at hrep
    obtain ⟨hmax, htot, hlab, hmem, hpne⟩ :=
      checkRainWindowed_report location loc.name h currentHour timePeriod r
        hch hl1 hrep
    rw [hlab]
    refine ⟨rainLabel_very _, rainLabel_likely _, rainLabel_possible _,
      rainLabel_unlikely _, ?_, ?_, htot, hmem⟩
    · rw [hmax]; exact pyMax_mem _ hpne
    · rw [hmax]; exact pyMax_ge _

/-- Concrete fixture: hour 23, period "tomorrow", a three-hour series whose
window is indices 1–2 with maximum probability 80. -/
theorem check_rain_probability_tiers_witness :
    (check_rain_probability (fun _ => .error "geo")
        (fun _ _ => .ok (some ⟨["t0", "t1", "t2"], [10, 80, 40], [0, 3/2, 3/10]⟩))
        "48.85,2.35" "tomorrow" 23 =
      RainResult.report
        ⟨"48.85,2.35", "tomorrow", 80, 9/5, "t1", "Rain is very likely"⟩) ∧
    ("Rain is very likely" = "Rain is very likely" ↔ (70 : Int) ≤ 80) ∧
    (80 : Int) ∈ rainProbsWindow ⟨["t0", "t1", "t2"], [10, 80, 40], [0, 3/2, 3/10]⟩ 23 "tomorrow" ∧
    (9/5 : ℚ) = pySum (rainAmountsWindow ⟨["t0", "t1", "t2"], [10, 80, 40], [0, 3/2, 3/10]⟩ 23 "tomorrow") ∧
    "t1" ∈ rainTimesWindow ⟨["t0", "t1", "t2"], [10, 80, 40], [0, 3/2, 3/10]⟩ 23 "tomorrow" := by
  have h := check_rain_probability_tiers (fun _ => .error "geo")
    ⟨["t0", "t1", "t2"], [10, 80, 40], [0, 3/2, 3/10]⟩ "48.85,2.35" "tomorrow" 23
    ⟨"48.85,2.35", "tomorrow", 80, 9/5, "t1", "Rain is very likely"⟩
    (by decide) (by decide) (by with_unfolding_all decide)
  exact ⟨by with_unfolding_all decide, h.1, h.2.2.2.2.1, h.2.2.2.2.2.2.1,
    h.2.2.2.2.2.2.2⟩

/-! ## Claims about the calendar tools -/

lemma strContainsSub_empty_hay (q : String) (h : strContainsSub "" q = true) :
    q = "" := by
  obtain ⟨l⟩ := q
  cases l with
  | nil => rfl
  | cons c cs => simp [strContainsSub, List.isPrefixOf] at h

/-- C7: in every `delete_event` call with a non-empty query, (a) the
listing request goes to the primary calendar with `timeMin = now`, so only
upcoming events are considered; (b) `singleEvents` is false exactly when
the `scope=all` flag was given, so the listing then keeps recurring series
unexpanded and the deletion hits the series master; (c) matching is the
case-insensitive substring test `deleteMatches`, exactly the FIRST
matching event of the listing (`List.find?`) is deleted, and the function
returns right after it; (d) when no event matches, nothing is deleted and
a "No event found" string is returned. -/
theorem delete_event_first_match (svc : EventsListReq → List GEvent)
    (now input : String) (hq : deleteQuery input ≠ "") :
    ((deleteListReq now input).calendarId = "primary" ∧
      (deleteListReq now input).timeMin = now ∧
      (deleteListReq now input).maxResults = 50) ∧
    (deleteListReq now input).singleEvents = (deleteScope input ≠ "all" : Bool) ∧
    (delete_event svc now input).req = deleteListReq now input ∧
    (∀ ev, (svc (deleteListReq now input)).find?
        (deleteMatches (deleteQuery input)) = some ev →
      ∃ title, ev.summary = some title ∧
        deleteMatches (deleteQuery input) ev = true ∧
        (delete_event svc now input).deletedId = some ev.id ∧
        (delete_event svc now input).output =
          "Deleted event '" ++ title ++ "' " ++
            (if deleteScope input = "all" then "(entire series)" else "")) ∧
    ((svc (deleteListReq now input)).find?
        (deleteMatches (deleteQuery input)) = none →
      (delete_event svc now input).deletedId = none ∧
      (delete_event svc now input).output =
        "No event found matching '" ++ deleteQuery input ++ "'") := by
  refine ⟨⟨rfl, rfl, rfl⟩, ?_, ?_, ?_, ?_⟩
  · unfold deleteListReq
    by_cases hs : deleteScope input = "all" <;> simp [hs]
  · unfold delete_event
    rcases hf : (svc (deleteListReq now input)).find?
        (deleteMatches (deleteQuery input)) with _ | ev
    · simp [hf]
    · simp only [hf]
      rcases hsum : ev.summary with _ | t <;> simp [hsum]
  · intro ev hf
    have hmatch : deleteMatches (deleteQuery input) ev = true :=
      List.find?_some hf
    rcases hsum : ev.summary with _ | title
    · exfalso
      unfold deleteMatches at hmatch
      rw [hsum] at hmatch
      exact hq (strContainsSub_empty_hay _ hmatch)
    · refine ⟨title, rfl, hmatch, ?_, ?_⟩ <;>
        · unfold delete_event
          simp only [hf, hsum]
  · intro hf
    unfold delete_event
    simp [hf]

/-- The three-event listing used by the witness. -/
def wEv1 : GEvent := ⟨"id1", some "Lunch", none, none⟩

def wEv2 : GEvent := ⟨"id2", some "Weekly Team Sync", none, none⟩

def wEv3 : GEvent := ⟨"id3", some "Team Retro", none, none⟩

def wSvc : EventsListReq → List GEvent := fun _ => [wEv1, wEv2, wEv3]

theorem delete_event_first_match_witness :
    (∃ title, wEv2.summary = some title ∧
      deleteMatches (deleteQuery "team | scope=all") wEv2 = true ∧
      (delete_event wSvc "2025-06-01T00:00:00Z"
        "team | scope=all").deletedId = some wEv2.id ∧
      (delete_event wSvc "2025-06-01T00:00:00Z" "team | scope=all").output =
        "Deleted event '" ++ title ++ "' " ++
          (if deleteScope "team | scope=all" = "all" then "(entire series)"
           else "")) ∧
    (deleteListReq "2025-06-01T00:00:00Z" "team | scope=all").singleEvents =
      false := by
  have h := delete_event_first_match wSvc
    "2025-06-01T00:00:00Z" "team | scope=all" (by decide)
  refine ⟨?_, ?_⟩
  · exact h.2.2.2.1 wEv2 (by decide)
  · rw [h.2.1]; decide

/-- The listing request `list_events` issues for a parsed count `n`. -/
def primaryListReq (now : String) (n : Int) : EventsListReq :=
  { calendarId := "primary", timeMin := now, maxResults := n,
    singleEvents := true, orderBy := some "startTime" }

/-- C8 (implicit): for every `list_events` input of the form
`"<cal_id> | <N>"` with `N` parsable as an integer, the calendar-id field
is parsed but ignored: the issued query always has `calendarId =
"primary"` (with `timeMin = now` and `maxResults = N`), the whole outcome
is identical for any other cal_id with the same `N` field, and — provided
the service honours `maxResults` — at most `N` events are returned. -/
theorem list_events_ignores_cal_id (svc : EventsListReq → List GEvent)
    (now input calId maxRes : String) (n : Int)
    (hp : toolParts input = [calId, maxRes])
    (hn : pyIntParse maxRes = some n)
    (hsvc : ((svc (primaryListReq now n)).length : Int) ≤ n) :
    (list_events svc now input).req = some (primaryListReq now n) ∧
    (((list_events svc now input).shown.length : Int) ≤ n) ∧
    (∀ input2 calId2, toolParts input2 = [calId2, maxRes] →
      list_events svc now input2 = list_events svc now input) := by
  have hle := hsvc
  refine ⟨?_, ?_, ?_⟩
  · unfold list_events
    rw [hp]
    simp only [hn]
    rcases he : svc (primaryListReq now n) with _ | ⟨ev, evs⟩ <;>
      simp [primaryListReq, he] at he ⊢
  · unfold list_events
    rw [hp]
    simp only [hn]
    rcases he : svc (primaryListReq now n) with _ | ⟨ev, evs⟩
    · simp only [primaryListReq] at he
      simp [he]
      have := he ▸ hle
      simp [primaryListReq] at this ⊢
      omega
    · simp only [primaryListReq] at he
      simp [he]
      have := he ▸ hle
      simpa [primaryListReq] using this
  · intro input2 calId2 hp2
    unfold list_events
    rw [hp, hp2]

theorem list_events_ignores_cal_id_witness :
    (list_events (fun _ => [wEv1]) "2025-06-01T00:00:00Z"
      "work-calendar | 5").req = some (primaryListReq "2025-06-01T00:00:00Z" 5) ∧
    list_events (fun _ => [wEv1]) "2025-06-01T00:00:00Z" "primary | 5" =
      list_events (fun _ => [wEv1]) "2025-06-01T00:00:00Z" "work-calendar | 5" := by
  have h := list_events_ignores_cal_id (fun _ => [wEv1])
    "2025-06-01T00:00:00Z" "work-calendar | 5" "work-calendar" "5" 5
    (by decide) (by decide) (by simp [primaryListReq])
  exact ⟨h.1, h.2.2 "primary | 5" "primary" (by decide)⟩

/-! ## Claim about `insert_event`'s recurrence handling -/

lemma recurrenceOf_eq_none (r : String)
    (hA : pyStartsWith (pyUpper (pyStrip r)) "RRULE:" = false)
    (hB : ∀ t0, (pySplitWs (pyLower (pyStrip r))).head? = some t0 →
      (t0 = "daily" ∨ t0 = "weekly") →
      (pySplitWs (pyLower (pyStrip r))).contains "until" = false) :
    recurrenceOf r = none := by
  unfold recurrenceOf
  by_cases hr : r = ""
  · rw [if_pos hr]
  · rw [if_neg hr]
    dsimp only
    simp only [hA, Bool.false_eq_true, if_false]
    rcases ht : pySplitWs (pyLower (pyStrip r)) with _ | ⟨t0, ts⟩
    · rfl
    · dsimp only
      by_cases hd : t0 = "daily" ∨ t0 = "weekly"
      · have hc := hB t0 (by rw [ht]; rfl) hd
        rw [ht] at hc
        simp only [hc, Bool.false_eq_true, and_false, if_false]
      · simp [hd]

lemma insertEventFields_rec_irrelevant (svc : InsertBody → InsertResp)
    (tz s ds ts du em de : String) (r : String)
    (hrec : recurrenceOf r = none) :
    insertEventFields svc tz s ds ts du em de (some r) =
      insertEventFields svc tz s ds ts du em de none := by
  unfold insertEventFields
  rcases parseDateF ds with _ | d <;> rcases parseTimeF ts with _ | t <;>
    rcases pyFloatParse du with _ | q <;> simp [hrec]

lemma insertEventFields_sent_recurrence (svc : InsertBody → InsertResp)
    (tz s ds ts du em de : String) (b : InsertBody)
    (hb : (insertEventFields svc tz s ds ts du em de none).sent = some b) :
    b.recurrence = none := by
  unfold insertEventFields at hb
  rcases hd : parseDateF ds with _ | d <;>
    rcases ht2 : parseTimeF ts with _ | t <;>
      rcases hq : pyFloatParse du with _ | q <;>
        rw [hd, ht2, hq] at hb <;> simp at hb
  rw [← hb]

/-- C9 (implicit): a seventh (recurrence) field that neither starts with
"RRULE:" (case-insensitively) nor begins with the token "daily" or
"weekly" with an "until" token present is silently ignored: the call
behaves exactly as the same call without the seventh field, the event body
handed to the service carries no recurrence, and hence the returned string
(identical to the six-field call's) reports success with no indication
that the recurrence was dropped. -/
theorem insert_event_drops_bad_recurrence (svc : InsertBody → InsertResp)
    (tz p1 p2 p3 p4 p5 p6 r : String)
    (hA : pyStartsWith (pyUpper (pyStrip r)) "RRULE:" = false)
    (hB : ∀ t0, (pySplitWs (pyLower (pyStrip r))).head? = some t0 →
      (t0 = "daily" ∨ t0 = "weekly") →
      (pySplitWs (pyLower (pyStrip r))).contains "until" = false) :
    insertEventCore svc tz [p1, p2, p3, p4, p5, p6, r] =
      insertEventCore svc tz [p1, p2, p3, p4, p5, p6] ∧
    (∀ b, (insertEventCore svc tz [p1, p2, p3, p4, p5, p6, r]).sent = some b →
      b.recurrence = none) := by
  have hrec := recurrenceOf_eq_none r hA hB
  have h7 : insertEventCore svc tz [p1, p2, p3, p4, p5, p6, r] =
      insertEventFields svc tz p1 p2 p3 p4 p5 p6 (some r) := rfl
  have h6 : insertEventCore svc tz [p1, p2, p3, p4, p5, p6] =
      insertEventFields svc tz p1 p2 p3 p4 p5 p6 none := rfl
  constructor
  · rw [h7, h6]
    exact insertEventFields_rec_irrelevant svc tz p1 p2 p3 p4 p5 p6 r hrec
  · intro b hb
    rw [h7, insertEventFields_rec_irrelevant svc tz p1 p2 p3 p4 p5 p6 r hrec]
      at hb
    exact insertEventFields_sent_recurrence svc tz p1 p2 p3 p4 p5 p6 b hb

/-- The constant service response used by the witness. -/
def wInsertSvc : InsertBody → InsertResp :=
  fun _ => ⟨some "Sync", some [some "http://meet"]⟩

/-- The event body the witness call sends: 2025-06-15, 14:30 (870 min) for
one hour, no recurrence. -/
def wInsertBody : InsertBody :=
  { summary := "Sync", description := "desc",
    startTime := { date := (2025, 6, 15), minutes := 870 },
    endTime := { date := (2025, 6, 15), minutes := 930 },
    timeZone := "Asia/Kolkata", attendees := ["a@x.com"],
    recurrence := none }

theorem insert_event_drops_bad_recurrence_witness :
    insertEventCore wInsertSvc "Asia/Kolkata"
        ["Sync", "2025-06-15", "14:30", "1", "a@x.com", "desc",
          "monthly until 2025-12-31"] =
      insertEventCore wInsertSvc "Asia/Kolkata"
        ["Sync", "2025-06-15", "14:30", "1", "a@x.com", "desc"] ∧
    (insertEventCore wInsertSvc "Asia/Kolkata"
        ["Sync", "2025-06-15", "14:30", "1", "a@x.com", "desc",
          "monthly until 2025-12-31"]).sent = some wInsertBody ∧
    wInsertBody.recurrence = none := by
  have h := insert_event_drops_bad_recurrence wInsertSvc "Asia/Kolkata"
    "Sync" "2025-06-15" "14:30" "1" "a@x.com" "desc" "monthly until 2025-12-31"
    (by decide)
    (by
      intro t0 h1 h2
      have hcomp : (pySplitWs (pyLower
          (pyStrip "monthly until 2025-12-31"))).head? = some "monthly" := by
        decide
      rw [hcomp] at h1
      injection h1 with h3
      subst h3
      rcases h2 with h2 | h2 <;> exact absurd h2 (by decide))
  have hsent : (insertEventCore wInsertSvc "Asia/Kolkata"
      ["Sync", "2025-06-15", "14:30", "1", "a@x.com", "desc",
        "monthly until 2025-12-31"]).sent = some wInsertBody := by
    with_unfolding_all decide
  exact ⟨h.1, hsent, h.2 wInsertBody hsent⟩

/-! ## Claim about the weather location fast path -/

/-- C10 (implicit): a location string of exactly two comma-separated parts
that both parse as floats is used directly as latitude/longitude — the
geocoder is never called (`geocoded = false` and the oracle's answer is
irrelevant); in every other case (`≠ 2` parts, or a part that does not
parse) the geocoder is called: its answer (or failure) becomes the result.
This is the common location path `_get_weather_data` of
`get_current_weather`, `get_weather_forecast` and `check_rain_probability`
(see `check_rain_probability`, which routes through `resolveLocation`). -/
theorem weather_coords_skip_geocode
    (geocode : String → Except String (ℚ × ℚ)) (location : String) :
    (∀ p1 p2 a b, (pySplitOn location ',').map pyStrip = [p1, p2] →
      pyFloatParse p1 = some a → pyFloatParse p2 = some b →
      resolveLocation geocode location =
        .ok { lat := a, lon := b, name := fmt2 a ++ "," ++ fmt2 b,
              geocoded := false }) ∧
    ((∀ p1 p2, (pySplitOn location ',').map pyStrip = [p1, p2] →
        pyFloatParse p1 = none ∨ pyFloatParse p2 = none) →
      (∀ la lo, geocode location = .ok (la, lo) →
        resolveLocation geocode location =
          .ok { lat := la, lon := lo, name := location, geocoded := true }) ∧
      (∀ e, geocode location = .error e →
        resolveLocation geocode location =
          .error ("Location error: " ++ e))) := by
  constructor
  · intro p1 p2 a b hp ha hb
    unfold resolveLocation
    simp only [hp, ha, hb]
  · intro hfail
    constructor
    · intro la lo hg
      unfold resolveLocation
      rcases hp : (pySplitOn location ',').map pyStrip with _ | ⟨x, _ | ⟨y, _ | _⟩⟩
      · simp only [hp, hg]
      · simp only [hp, hg]
      · rcases hfail x y hp with hx | hx
        · simp only [hp, hx, hg]
        · rcases hv : pyFloatParse x with _ | vx <;> simp only [hp, hv, hx, hg]
      · simp only [hp, hg]
    · intro e hg
      unfold resolveLocation
      rcases hp : (pySplitOn location ',').map pyStrip with _ | ⟨x, _ | ⟨y, _ | _⟩⟩
      · simp only [hp, hg]
      · simp only [hp, hg]
      · rcases hfail x y hp with hx | hx
        · simp only [hp, hx, hg]
        · rcases hv : pyFloatParse x with _ | vx <;> simp only [hp, hv, hx, hg]
      · simp only [hp, hg]

theorem weather_coords_skip_geocode_witness :
    resolveLocation (fun _ => .error "geocoder unreachable") "48.85, 2.35" =
      .ok { lat := 977/20, lon := 47/20, name := fmt2 (977/20) ++ "," ++ fmt2 (47/20),
            geocoded := false } ∧
    resolveLocation (fun _ => .error "not found") "Paris" =
      .error ("Location error: " ++ "not found") := by
  constructor
  · exact (weather_coords_skip_geocode (fun _ => .error "geocoder unreachable")
      "48.85, 2.35").1 "48.85" "2.35" (977/20) (47/20) (by decide)
      (by with_unfolding_all decide) (by with_unfolding_all decide)
  · exact ((weather_coords_skip_geocode (fun _ => .error "not found")
      "Paris").2 (by
        intro p1 p2 h
        have hq : (pySplitOn "Paris" ',').map pyStrip = ["Paris"] := by decide
        rw [hq] at h
        simp at h)).2
      "not found" rfl

end IPA
